import Mathlib

/-!
Shallow embedding of the self-evolution-system repository (TypeScript) in Lean 4.

Sources embedded:
  * src/src/transfer/KnowledgeTransfer.ts
      - class KnowledgeTransfer  (version gate, knowledge integration)
      - class SelfEvolutionSystem (challenge dedup, solution evaluation,
        auto-execution gate, solution execution with rollback, improvement metrics)
  * src/unnamed/part_003 — class LearningEngine
  * src/src/generators/SolutionGenerator.ts — solution constructors
  * src/src/types/index.ts — the data model

Modelling conventions:
  * JS `number` is modelled as ℚ wherever the code keeps it finite; the
    confidence pipeline, where 0/0 really occurs (empty risk lists), uses the
    NaN/Infinity-aware type `JVal` below.
  * `Date` values and `Date.now()` are modelled as natural-number timestamps
    passed in explicitly.
  * Generated ids (`md5`/`Math.random` based) are passed in as explicit
    arguments: the code only ever uses them as opaque keys.
  * JS `Map` (string-keyed, insertion ordered) is modelled as an association
    list; `Map.set` on an existing key replaces in place, otherwise appends.
  * The lookup helpers `findChallengeById` / `findSolutionById` /
    `findSimilarPattern` are embedded exactly as written in the source: they
    unconditionally return null.
-/

namespace SES

/-- `ChallengeType` from src/src/types/index.ts. -/
inductive ChallengeType where
  | performance | error | security | scalability | usability
  | integration | dataQuality | videoProcessing
  deriving DecidableEq, Repr

/-- `Severity` from src/src/types/index.ts. -/
inductive Severity where
  | critical | high | medium | low
  deriving DecidableEq, Repr

/-- `ChallengeStatus` from src/src/types/index.ts. -/
inductive ChallengeStatus where
  | pending | analyzing | ready | executing | resolved | failed
  deriving DecidableEq, Repr

/-- `Risk.impact` tier (`'high' | 'medium' | 'low'`). -/
inductive RiskImpact where
  | high | medium | low
  deriving DecidableEq, Repr

/-- `Learning.outcome` (`'success' | 'failure' | 'partial'`; the last is
named `partialSuccess` here because of a Lean keyword clash). -/
inductive Outcome where
  | success | failure | partialSuccess
  deriving DecidableEq, Repr

/-- `SystemChallenge.source` (`'auto' | 'manual' | 'monitor'`). -/
inductive ChallengeSource where
  | auto | manual | monitor
  deriving DecidableEq, Repr

/-- `Implementation.type` (`'code' | 'config' | 'process' | 'infrastructure'`). -/
inductive ImplType where
  | code | config | process | infrastructure
  deriving DecidableEq, Repr

/-- A value stored in a challenge's `context: Record<string, any>` bag.
Nested objects that occur in the repository (the `metrics` sub-record) hold
only numbers, so `obj` carries a flat numeric record. -/
inductive CtxVal where
  | num (q : ℚ)
  | str (s : String)
  | date (t : Nat)
  | obj (entries : List (String × ℚ))
  deriving DecidableEq, Repr

/-- JS strict equality `===` on context values.  `===` on two objects is
reference equality; the two context bags compared by the code are always
distinct objects, so the `obj`/`obj` case is `false`. -/
def jsStrictEq : CtxVal → CtxVal → Bool
  | .num a, .num b => a == b
  | .str a, .str b => a == b
  | .date a, .date b => a == b
  | _, _ => false

/-- A JS `number` in the confidence pipeline: NaN and signed infinities are
representable, because `calculateRiskScore` divides 0 by 0 on an empty risk
list. -/
inductive JVal where
  | nan
  | inf (pos : Bool)
  | num (q : ℚ)
  deriving DecidableEq, Repr

namespace JVal

/-- IEEE addition as performed by JS `+`. -/
def add : JVal → JVal → JVal
  | .nan, _ => .nan
  | _, .nan => .nan
  | .inf p, .inf q => if p = q then .inf p else .nan
  | .inf p, .num _ => .inf p
  | .num _, .inf q => .inf q
  | .num a, .num b => .num (a + b)

/-- IEEE negation. -/
def neg : JVal → JVal
  | .nan => .nan
  | .inf p => .inf (!p)
  | .num a => .num (-a)

/-- IEEE subtraction as performed by JS `-`. -/
def sub (x y : JVal) : JVal := add x (neg y)

/-- IEEE multiplication as performed by JS `*`. -/
def mul : JVal → JVal → JVal
  | .nan, _ => .nan
  | _, .nan => .nan
  | .inf p, .inf q => .inf (p = q)
  | .inf p, .num b => if b = 0 then .nan else .inf (p = decide (0 < b))
  | .num a, .inf q => if a = 0 then .nan else .inf (q = decide (0 < a))
  | .num a, .num b => .num (a * b)

/-- IEEE division as performed by JS `/` (0/0 is NaN, x/0 is a signed
infinity for x ≠ 0). -/
def div : JVal → JVal → JVal
  | .nan, _ => .nan
  | _, .nan => .nan
  | .inf _, .inf _ => .nan
  | .inf p, .num b => if b < 0 then .inf (!p) else .inf p
  | .num _, .inf _ => .num 0
  | .num a, .num b =>
      if b = 0 then (if a = 0 then .nan else .inf (decide (0 < a)))
      else .num (a / b)

/-- `Math.min(x, c)` for a finite second argument (NaN is absorbing). -/
def minC (x : JVal) (c : ℚ) : JVal :=
  match x with
  | .nan => .nan
  | .inf p => if p then .num c else .inf false
  | .num a => .num (min a c)

/-- JS `x > c` for a finite right-hand side: false whenever `x` is NaN. -/
def gtC (x : JVal) (c : ℚ) : Bool :=
  match x with
  | .nan => false
  | .inf p => p
  | .num a => decide (c < a)

/-- JS `x > 0`, used on the result of a sort comparator. -/
def pos : JVal → Bool
  | .nan => false
  | .inf p => p
  | .num a => decide (0 < a)

end JVal

/-- `ValidationRule` from src/src/types/index.ts. -/
structure ValidationRule where
  rtype : String
  expected : CtxVal
  operator : String
  deriving DecidableEq, Repr

/-- `ExecutionStep` from src/src/types/index.ts. -/
structure ExecutionStep where
  order : Nat
  action : String
  target : String
  parameters : List (String × CtxVal)
  validation : List ValidationRule
  deriving DecidableEq, Repr

/-- `Implementation` from src/src/types/index.ts. -/
structure Implementation where
  type : ImplType
  steps : List ExecutionStep
  rollbackPlan : List ExecutionStep
  estimatedDuration : ℚ
  deriving DecidableEq, Repr

/-- `Impact` from src/src/types/index.ts. -/
structure Impact where
  performance : ℚ
  reliability : ℚ
  userExperience : ℚ
  cost : ℚ
  security : ℚ
  deriving DecidableEq, Repr

/-- `Risk` from src/src/types/index.ts. -/
structure Risk where
  description : String
  probability : ℚ
  impact : RiskImpact
  mitigation : String
  deriving DecidableEq, Repr

/-- `Learning` from src/src/types/index.ts. -/
structure Learning where
  id : String
  challengeId : String
  solutionId : String
  outcome : Outcome
  metrics : List (String × ℚ)
  lessons : List String
  timestamp : Nat
  affectedComponents : List String
  deriving DecidableEq, Repr

/-- `Solution` from src/src/types/index.ts.  `confidence` lives in `JVal`
because `evaluateSolutions` can store NaN there. -/
structure Solution where
  id : String
  challengeId : String
  title : String
  description : String
  implementation : Implementation
  confidence : JVal
  estimatedImpact : Impact
  prerequisites : List String
  risks : List Risk
  createdAt : Nat
  executionTime : Option ℚ
  deriving DecidableEq, Repr

/-- `SystemChallenge` from src/src/types/index.ts. -/
structure SystemChallenge where
  id : String
  type : ChallengeType
  severity : Severity
  description : String
  detectedAt : Nat
  context : List (String × CtxVal)
  proposedSolutions : List Solution
  status : ChallengeStatus
  learnings : List Learning
  source : ChallengeSource
  deriving DecidableEq, Repr

/-- `MetricCondition` from src/src/types/index.ts. -/
structure MetricCondition where
  metric : String
  operator : String
  value : ℚ
  duration : Option ℚ
  deriving DecidableEq, Repr

/-- `TriggerCondition` from src/src/types/index.ts (the repository only ever
populates the `metrics` component; `logs`/`events` stay empty lists). -/
structure TriggerCondition where
  metrics : List MetricCondition
  logs : List String
  events : List String
  combinator : String
  deriving DecidableEq, Repr

/-- `SolutionTemplate` from src/src/types/index.ts. -/
structure SolutionTemplate where
  name : String
  steps : List String
  parameters : List (String × CtxVal)
  expectedOutcome : String
  deriving DecidableEq, Repr

/-- `Pattern` from src/src/types/index.ts. -/
structure Pattern where
  id : String
  name : String
  description : String
  trigger : TriggerCondition
  solution : SolutionTemplate
  successRate : ℚ
  usageCount : Nat
  deriving DecidableEq, Repr

/-- `SystemMetrics` from src/src/types/index.ts. -/
structure SystemMetrics where
  cpu : ℚ
  memory : ℚ
  diskUsage : ℚ
  networkLatency : ℚ
  errorRate : ℚ
  responseTime : ℚ
  activeUsers : ℚ
  videoProcessingQueue : ℚ
  deriving DecidableEq, Repr

/-- `KnowledgeTransferPackage` from src/src/types/index.ts. -/
structure KnowledgeTransferPackage where
  sourceSystem : String
  targetSystem : String
  challenges : List SystemChallenge
  solutions : List Solution
  learnings : List Learning
  patterns : List Pattern
  createdAt : Nat
  version : String
  deriving DecidableEq, Repr

/-! ### JS helper semantics -/

/-- Lookup in a `Record<string, any>` / insertion-ordered `Map`. -/
def recGet (m : List (String × α)) (k : String) : Option α :=
  (m.find? (fun e => e.1 == k)).map (·.2)

/-- JS property assignment / `Map.set`: replace in place when the key exists,
append otherwise. -/
def recSet (m : List (String × α)) (k : String) (v : α) : List (String × α) :=
  if m.any (fun e => e.1 == k) then
    m.map (fun e => if e.1 == k then (k, v) else e)
  else m ++ [(k, v)]

/-- JS `x || 1` applied to `context.occurrences` (absent, non-numeric and 0
values are falsy and give the default 1). -/
def occurrencesOrOne (v : Option CtxVal) : ℚ :=
  match v with
  | some (.num q) => if q = 0 then 1 else q
  | _ => 1

/-- Split a char list at every char satisfying `p` (the semantics of JS
`split` with a single-char separator class, keeping empty fields). -/
def splitChars (p : Char → Bool) (l : List Char) : List String :=
  l.foldr (fun c acc =>
    match acc with
    | [] => [String.mk [c]]
    | cur :: rest =>
        if p c then "" :: cur :: rest else String.mk (c :: cur.toList) :: rest) [""]

/-- JS `str.split(sep)` for a one-char separator (the only form the
repository uses: `'.'` and `'_'`). -/
def jsSplitChar (sep : Char) (s : String) : List String :=
  splitChars (fun c => c == sep) s.toList

/-- JS `str.toLowerCase()` (ASCII-faithful). -/
def jsToLower (s : String) : String :=
  String.mk (s.toList.map Char.toLower)

/-- JS `str.split(/\s+/)`: split on maximal whitespace runs, keeping a
leading/trailing empty string when the string starts/ends with whitespace,
and returning `[""]` on the empty string. -/
def jsSplitWs (s : String) : List String :=
  match s.toList with
  | [] => [""]
  | c0 :: rest =>
      let core := (splitChars (fun c => c.isWhitespace) (c0 :: rest)).filter
        (fun w => w ≠ "")
      let lead := if c0.isWhitespace then [""] else []
      let trail := if ((c0 :: rest).getLast (by simp)).isWhitespace then [""] else []
      lead ++ core ++ trail

/-- Is `needle` a prefix of `hay`? (char-list level). -/
def charPrefixB : List Char → List Char → Bool
  | [], _ => true
  | _ :: _, [] => false
  | a :: as, b :: bs => a == b && charPrefixB as bs

/-- JS `hay.includes(needle)` (substring containment), on char lists. -/
def charInfixB (needle : List Char) : List Char → Bool
  | [] => needle.isEmpty
  | l@(_ :: rest) => charPrefixB needle l || charInfixB needle rest

/-- JS `hay.includes(needle)` on strings. -/
def jsIncludesStr (hay needle : String) : Bool :=
  charInfixB needle.toList hay.toList

/-! ### String renderings of the enumerated types (the TS string literals) -/

/-- The TS string literal behind each `ChallengeType` value. -/
def typeStr : ChallengeType → String
  | .performance => "performance"
  | .error => "error"
  | .security => "security"
  | .scalability => "scalability"
  | .usability => "usability"
  | .integration => "integration"
  | .dataQuality => "data-quality"
  | .videoProcessing => "video-processing"

/-- The TS string literal behind each `Severity` value. -/
def severityStr : Severity → String
  | .critical => "critical"
  | .high => "high"
  | .medium => "medium"
  | .low => "low"

/-- The TS string literal behind each `Outcome` value. -/
def outcomeStr : Outcome → String
  | .success => "success"
  | .failure => "failure"
  | .partialSuccess => "partial"

/-! ### LearningEngine (src/unnamed/part_003)

The engine's mutable fields `patterns : Map<string, Pattern>` and
`learningHistory : Learning[]` form `EngineState`; `successThreshold` is the
constant 0.7.  The id of a pattern freshly minted by `createPatternFromGroup`
(`pattern_${Date.now()}_${random}`) is passed in as `freshPatternId`. -/

/-- The `LearningEngine`'s mutable state. -/
structure EngineState where
  patterns : List (String × Pattern)
  learningHistory : List Learning
  deriving DecidableEq, Repr

/-- `LearningEngine.successThreshold` (initialised to 0.7, never changed). -/
def successThreshold : ℚ := 7/10

/-- `LearningEngine.findChallengeById` — embedded exactly as written in the
source: the body is `return null`. -/
def findChallengeById (_ : String) : Option SystemChallenge := none

/-- `LearningEngine.findSolutionById` — embedded exactly as written in the
source: the body is `return null`. -/
def findSolutionById (_ : String) : Option Solution := none

/-- `LearningEngine.calculateContextSimilarity`. -/
def calculateContextSimilarity (context1 context2 : List (String × CtxVal)) : ℚ :=
  let keys1 := context1.map (·.1)
  let keys2 := context2.map (·.1)
  let commonKeys := keys1.filter (fun k => keys2.contains k)
  if commonKeys.length = 0 then 0
  else
    let similarity := commonKeys.foldl (fun sim key =>
      match recGet context1 key, recGet context2 key with
      | some v1, some v2 =>
          if jsStrictEq v1 v2 then sim + 1
          else
            match v1, v2 with
            | .num a, .num b => sim + (min a b) / (max a b)
            | _, _ => sim
      | _, _ => sim) (0 : ℚ)
    similarity / (max keys1.length keys2.length : ℚ)

/-- `LearningEngine.isSimilarSolution` (compares ids only). -/
def isSimilarSolution (solutionId : String) (solution : Solution) : Bool :=
  solutionId == solution.id

/-- `LearningEngine.isPartialSuccessAcceptable`. -/
def isPartialSuccessAcceptable (learning : Learning) : Bool :=
  let positiveMetrics := (learning.metrics.filter (fun kv => 0 < kv.2)).length
  let totalMetrics := learning.metrics.length
  decide ((1 : ℚ)/2 < (positiveMetrics : ℚ) / (totalMetrics : ℚ))

/-- `LearningEngine.isSolutionRelatedToPattern`. -/
def isSolutionRelatedToPattern (solution : Solution) (pattern : Pattern) : Bool :=
  let solutionSteps := solution.implementation.steps.map (·.action)
  let patternSteps := pattern.solution.steps
  let commonSteps := solutionSteps.filter (fun s =>
    patternSteps.any (fun ps => jsIncludesStr ps s || jsIncludesStr s ps))
  decide ((1 : ℚ)/2 <
    (commonSteps.length : ℚ) / (max solutionSteps.length patternSteps.length : ℚ))

/-- `LearningEngine.estimateSuccessRateFromPatterns`. -/
def estimateSuccessRateFromPatterns (patterns : List (String × Pattern))
    (solution : Solution) : ℚ :=
  let related := (patterns.map (·.2)).filter (isSolutionRelatedToPattern solution)
  let totalRate := related.foldl (fun acc p => acc + p.successRate) 0
  if related.length = 0 then 1/2 else totalRate / (related.length : ℚ)

/-- `LearningEngine.calculateSuccessRate` (public; used by the evaluator). -/
def calculateSuccessRate (patterns : List (String × Pattern)) (solution : Solution)
    (learnings : List Learning) : ℚ :=
  let relevantLearnings := learnings.filter (fun l => isSimilarSolution l.solutionId solution)
  if relevantLearnings.length = 0 then
    estimateSuccessRateFromPatterns patterns solution
  else
    let successCount := (relevantLearnings.filter (fun l => l.outcome = .success)).length
    let partialCount := (relevantLearnings.filter (fun l => l.outcome = .partialSuccess)).length
    ((successCount : ℚ) + (partialCount : ℚ) * (1/2)) / (relevantLearnings.length : ℚ)

/-- `LearningEngine.filterRelevantLearnings`. -/
def filterRelevantLearnings (challenge : SystemChallenge) (learnings : List Learning) :
    List Learning :=
  learnings.filter fun learning =>
    match findChallengeById learning.challengeId with
    | none => false
    | some relatedChallenge =>
        if relatedChallenge.type ≠ challenge.type then false
        else decide ((3 : ℚ)/5 <
          calculateContextSimilarity challenge.context relatedChallenge.context)

/-- `LearningEngine.extractSuccessfulSolutions` (insertion-ordered map keyed
by solution id). -/
def extractSuccessfulSolutions (learnings : List Learning) : List Solution :=
  let step := fun (acc : List (String × Solution)) (learning : Learning) =>
    if learning.outcome = .success ∨
        (learning.outcome = .partialSuccess ∧ isPartialSuccessAcceptable learning) then
      match findSolutionById learning.solutionId with
      | some solution => recSet acc solution.id solution
      | none => acc
    else acc
  (learnings.foldl step []).map (·.2)

/-- `LearningEngine.calculateSolutionSuccessRate` (falls back to the stored
confidence, hence `JVal`-valued). -/
def calculateSolutionSuccessRate (solution : Solution) (learnings : List Learning) : JVal :=
  let relevantLearnings := learnings.filter (fun l => l.solutionId == solution.id)
  if relevantLearnings.length = 0 then solution.confidence
  else
    let successCount := (relevantLearnings.filter (fun l => l.outcome = .success)).length
    .num ((successCount : ℚ) / (relevantLearnings.length : ℚ))

/-- JS `Array.prototype.sort` (stable) with the descending comparator
`(a, b) => f(b) - f(a)`: an element must move after another exactly when the
comparator is positive. -/
def jsSortByDesc (f : α → JVal) (l : List α) : List α :=
  l.mergeSort (fun a b => !(JVal.sub (f b) (f a)).pos)

/-- `LearningEngine.findRelevantSolutions` (public). -/
def findRelevantSolutions (challenge : SystemChallenge) (learnings : List Learning) :
    List Solution :=
  let relevantLearnings := filterRelevantLearnings challenge learnings
  let successfulSolutions := extractSuccessfulSolutions relevantLearnings
  jsSortByDesc (fun s => calculateSolutionSuccessRate s relevantLearnings) successfulSolutions

/-- `LearningEngine.matchesPatternTrigger` (a metric condition with an
operator outside the five known cases falls through the `switch` and does not
reject). -/
def matchesPatternTrigger (challenge : SystemChallenge) (trigger : TriggerCondition) : Bool :=
  trigger.metrics.all fun metric =>
    match recGet challenge.context metric.metric with
    | some (.num value) =>
        if metric.operator == "gt" then decide (metric.value < value)
        else if metric.operator == "lt" then decide (value < metric.value)
        else if metric.operator == "eq" then value == metric.value
        else if metric.operator == "gte" then decide (metric.value ≤ value)
        else if metric.operator == "lte" then decide (value ≤ metric.value)
        else true
    | _ => false

/-- `LearningEngine.findRelatedPatterns`. -/
def findRelatedPatterns (patterns : List (String × Pattern)) (learning : Learning) :
    List Pattern :=
  match findChallengeById learning.challengeId with
  | none => []
  | some challenge =>
      (patterns.map (·.2)).filter (fun p => matchesPatternTrigger challenge p.trigger)

/-- `LearningEngine.generateGroupKey`. -/
def generateGroupKey (challenge : SystemChallenge) (learning : Learning) : String :=
  typeStr challenge.type ++ "_" ++ severityStr challenge.severity ++ "_" ++
    outcomeStr learning.outcome

/-- `LearningEngine.groupSuccessfulLearnings`. -/
def groupSuccessfulLearnings (learnings : List Learning) : List (String × List Learning) :=
  learnings.foldl (fun groups learning =>
    if learning.outcome ≠ .success then groups
    else
      match findChallengeById learning.challengeId with
      | none => groups
      | some challenge =>
          let key := generateGroupKey challenge learning
          match recGet groups key with
          | some g => recSet groups key (g ++ [learning])
          | none => recSet groups key [learning]) []

/-- `LearningEngine.deduplicateMetrics`. -/
def deduplicateMetrics (metrics : List MetricCondition) : List MetricCondition :=
  (metrics.foldl (fun unique metric =>
    let key := metric.metric ++ "_" ++ metric.operator
    match recGet unique key with
    | none => recSet unique key metric
    | some existing =>
        if existing.value < metric.value then recSet unique key metric else unique)
    []).map (·.2)

/-- `LearningEngine.extractCommonTrigger`. -/
def extractCommonTrigger (group : List Learning) : TriggerCondition :=
  let metrics := group.foldl (fun acc learning =>
    match findChallengeById learning.challengeId with
    | some challenge =>
        match recGet challenge.context "metrics" with
        | some (.obj entries) =>
            acc ++ (entries.filter (fun kv => 0 < kv.2)).map (fun kv =>
              ({ metric := kv.1, operator := "gt", value := kv.2 * (4/5),
                 duration := some 300 } : MetricCondition))
        | _ => acc
    | none => acc) []
  { metrics := deduplicateMetrics metrics, logs := [], events := [], combinator := "AND" }

/-- `LearningEngine.calculateLearningScore`. -/
def calculateLearningScore (learning : Learning) : ℚ :=
  let metricScore := (learning.metrics.filter (fun kv => 0 < kv.2)).foldl
    (fun acc kv => acc + kv.2) 0
  let outcomeScore : ℚ :=
    if learning.outcome = .success then 100
    else if learning.outcome = .partialSuccess then 50 else 0
  metricScore + outcomeScore

/-- `LearningEngine.extractCommonParameters` (`Array.prototype.reduce` keeps
the current best on ties, replacing only on a strictly greater score). -/
def extractCommonParameters (group : List Learning) : List (String × CtxVal) :=
  match group with
  | [] => []
  | g0 :: rest =>
      let bestLearning := rest.foldl (fun best current =>
        if calculateLearningScore best < calculateLearningScore current then current
        else best) g0
      match findSolutionById bestLearning.solutionId with
      | some solution =>
          solution.implementation.steps.foldl (fun params step =>
            step.parameters.foldl (fun p kv => recSet p kv.1 kv.2) params) []
      | none => []

/-- `LearningEngine.extractExpectedOutcome` (the head of the
count-descending stable sort is the first entry with maximal count). -/
def extractExpectedOutcome (group : List Learning) : String :=
  let improvements := group.foldl (fun acc learning =>
    learning.metrics.foldl (fun acc kv =>
      if 0 < kv.2 then
        recSet acc kv.1 ((recGet acc kv.1).getD 0 + 1)
      else acc) acc) ([] : List (String × Nat))
  let topImprovement := improvements.foldl (fun best kv =>
    match best with
    | none => some kv
    | some b => if b.2 < kv.2 then some kv else best) none
  match topImprovement with
  | some kv => kv.1 ++ "の改善"
  | none => "問題の解決"

/-- `LearningEngine.calculateGroupSuccessRate`. -/
def calculateGroupSuccessRate (group : List Learning) : ℚ :=
  let totalImprovement := group.foldl (fun sum learning =>
    sum + (learning.metrics.filter (fun kv => 0 < kv.2)).foldl (fun a kv => a + kv.2) 0) 0
  min (totalImprovement / ((group.length : ℚ) * 100)) 1

/-- `LearningEngine.createPatternFromGroup`. -/
def createPatternFromGroup (freshPatternId : String) (group : List Learning) :
    Option Pattern :=
  match group with
  | [] => none
  | firstLearning :: _ =>
      match findChallengeById firstLearning.challengeId,
            findSolutionById firstLearning.solutionId with
      | some challenge, some solution =>
          some { id := freshPatternId,
                 name := typeStr challenge.type ++ "の自動解決パターン",
                 description := solution.description,
                 trigger := extractCommonTrigger group,
                 solution := { name := solution.title,
                               steps := solution.implementation.steps.map (·.action),
                               parameters := extractCommonParameters group,
                               expectedOutcome := extractExpectedOutcome group },
                 successRate := calculateGroupSuccessRate group,
                 usageCount := group.length }
      | _, _ => none

/-- `LearningEngine.updateExistingPatterns` (fixed learning weight 0.1). -/
def updateExistingPatterns (patterns : List (String × Pattern))
    (learnings : List Learning) : List (String × Pattern) :=
  learnings.foldl (fun pats learning =>
    let relatedPatterns := findRelatedPatterns pats learning
    pats.map (fun e =>
      if relatedPatterns.any (fun p => p.id == e.1) then
        let weight : ℚ := 1/10
        let newSuccessValue : ℚ := if learning.outcome = .success then 1 else 0
        (e.1, { e.2 with successRate :=
                  e.2.successRate * (1 - weight) + newSuccessValue * weight })
      else e)) patterns

/-- `LearningEngine.extractPatterns` (public): returns the freshly created
patterns and the updated engine state. -/
def extractPatterns (st : EngineState) (freshPatternId : String)
    (learnings : List Learning) : List Pattern × EngineState :=
  let successGroups := groupSuccessfulLearnings learnings
  let folded := successGroups.foldl (fun (acc : List Pattern × List (String × Pattern)) kg =>
    if 3 ≤ kg.2.length then
      match createPatternFromGroup freshPatternId kg.2 with
      | some pattern =>
          if successThreshold ≤ pattern.successRate then
            (acc.1 ++ [pattern], recSet acc.2 pattern.id pattern)
          else acc
      | none => acc
    else acc) ([], st.patterns)
  let patterns2 := updateExistingPatterns folded.2 learnings
  (folded.1, { patterns := patterns2, learningHistory := st.learningHistory })

/-- `this.learningHistory.slice(-50)`. -/
def lastFifty (history : List Learning) : List Learning :=
  history.drop (history.length - 50)

/-- `LearningEngine.updateKnowledge` (public). -/
def updateKnowledge (st : EngineState) (freshPatternId : String)
    (learning : Learning) : EngineState :=
  let history := st.learningHistory ++ [learning]
  let relatedPatterns := findRelatedPatterns st.patterns learning
  let pats := st.patterns.map (fun e =>
    if relatedPatterns.any (fun p => p.id == e.1) then
      let pattern := e.2
      let newRate : ℚ :=
        if learning.outcome = .success then
          (pattern.successRate * (pattern.usageCount : ℚ) + 1) / ((pattern.usageCount : ℚ) + 1)
        else if learning.outcome = .failure then
          (pattern.successRate * (pattern.usageCount : ℚ)) / ((pattern.usageCount : ℚ) + 1)
        else pattern.successRate
      (e.1, { pattern with successRate := newRate, usageCount := pattern.usageCount + 1 })
    else e)
  let st1 : EngineState := { patterns := pats, learningHistory := history }
  if history.length % 10 = 0 then
    (extractPatterns st1 freshPatternId (lastFifty history)).2
  else st1

/-! ### SolutionGenerator (src/src/generators/SolutionGenerator.ts)

Only the two solution constructors cited by the claims are embedded; the
fresh id (`generateSolutionId`) and the `new Date()` timestamp are passed in. -/

/-- One step of a static solution template
(`SolutionGenerator.solutionTemplates` entries). -/
structure TemplateStep where
  action : String
  target : String
  parameters : List (String × CtxVal)
  deriving DecidableEq, Repr

/-- A static solution template value. -/
structure SolutionTemplateDef where
  title : String
  steps : List TemplateStep
  deriving DecidableEq, Repr

/-- `SolutionGenerator.createSolutionFromPattern`.  The step parameter
object is `{ step, ...pattern.solution.parameters }` (spread last, so a
`"step"` key in the pattern parameters would win). -/
def createSolutionFromPattern (freshSolutionId : String) (now : Nat)
    (challenge : SystemChallenge) (pattern : Pattern) : Solution :=
  { id := freshSolutionId,
    challengeId := challenge.id,
    title := pattern.solution.name,
    description := pattern.description,
    implementation :=
      { type := .process,
        steps := pattern.solution.steps.enum.map (fun e =>
          { order := e.1 + 1, action := "execute", target := "pattern-step",
            parameters := pattern.solution.parameters.foldl
              (fun p kv => recSet p kv.1 kv.2) [("step", .str e.2)],
            validation := [] }),
        rollbackPlan := [],
        estimatedDuration := 30 },
    confidence := .num pattern.successRate,
    estimatedImpact :=
      { performance := 20, reliability := 20, userExperience := 20,
        cost := 0, security := 0 },
    prerequisites := [],
    risks := [],
    createdAt := now,
    executionTime := none }

/-- `SolutionGenerator.createSolutionFromTemplate`. -/
def createSolutionFromTemplate (freshSolutionId : String) (now : Nat)
    (challenge : SystemChallenge) (template : SolutionTemplateDef) : Solution :=
  { id := freshSolutionId,
    challengeId := challenge.id,
    title := template.title,
    description := "Template-based solution for " ++ typeStr challenge.type,
    implementation :=
      { type := .code,
        steps := template.steps.enum.map (fun e =>
          { order := e.1 + 1, action := e.2.action, target := e.2.target,
            parameters := e.2.parameters, validation := [] }),
        rollbackPlan := [],
        estimatedDuration := 20 },
    confidence := .num (7/10),
    estimatedImpact :=
      { performance := 25, reliability := 25, userExperience := 25,
        cost := 0, security := 0 },
    prerequisites := [],
    risks := [],
    createdAt := now,
    executionTime := none }

/-! ### SelfEvolutionSystem (src/src/transfer/KnowledgeTransfer.ts, second
class in the file) -/

/-- The argument of `recordChallenge` (`Partial<SystemChallenge>`; all call
sites in the repository populate at most type/severity/description/context/
source). -/
structure PartialChallenge where
  type : Option ChallengeType := none
  severity : Option Severity := none
  description : Option String := none
  context : Option (List (String × CtxVal)) := none
  source : Option ChallengeSource := none
  deriving DecidableEq, Repr

/-- `SelfEvolutionSystem.calculateSimilarity`: Jaccard similarity of the
lower-cased word sets of two descriptions.  JS `Set`s are modelled as
duplicate-free lists: `new Set(words).size` is `words.dedup.length`, the
intersection filters one set by membership in the other, and the union
deduplicates the concatenation. -/
def calculateSimilarity (str1 str2 : String) : ℚ :=
  let set1 := (jsSplitWs (jsToLower str1)).dedup
  let set2 := (jsSplitWs (jsToLower str2)).dedup
  let intersection := set1.filter (fun x => set2.contains x)
  let union := (set1 ++ set2).dedup
  (intersection.length : ℚ) / (union.length : ℚ)

/-- The per-challenge test inside `SelfEvolutionSystem.findSimilarChallenge`
(`existing.type === challenge.type` is false when the partial has no type,
because `undefined` equals no `ChallengeType` literal). -/
def isSimilarTo (challenge : PartialChallenge) (existing : SystemChallenge) : Bool :=
  (match challenge.type with
   | some t => existing.type == t
   | none => false) &&
  !(existing.status == .resolved) &&
  decide ((4 : ℚ)/5 < calculateSimilarity existing.description (challenge.description.getD ""))

/-- `SelfEvolutionSystem.findSimilarChallenge`: the first map entry (in
insertion order) passing the similarity test. -/
def findSimilarChallenge (challenges : List SystemChallenge)
    (challenge : PartialChallenge) : Option SystemChallenge :=
  challenges.find? (isSimilarTo challenge)

/-- The in-place update of a deduplicated challenge:
`context.occurrences = (context.occurrences || 1) + 1` and
`context.lastOccurred = new Date()`. -/
def bumpOccurrence (now : Nat) (c : SystemChallenge) : SystemChallenge :=
  let ctx1 := recSet c.context "occurrences"
    (.num (occurrencesOrOne (recGet c.context "occurrences") + 1))
  { c with context := recSet ctx1 "lastOccurred" (.date now) }

/-- Replace the first element satisfying `pred` (the object JS mutates is the
first match that `findSimilarChallenge` returned). -/
def replaceFirst (pred : α → Bool) (f : α → α) : List α → List α
  | [] => []
  | a :: rest => if pred a then f a :: rest else a :: replaceFirst pred f rest

/-- `SelfEvolutionSystem.recordChallenge`: dedup against the stored
challenges, else create a new record with the documented defaults.  Returns
the id handed back to the caller together with the updated challenge map
(`generateChallengeId`'s md5-based fresh id is the `freshId` argument). -/
def recordChallenge (challenges : List SystemChallenge) (now : Nat) (freshId : String)
    (challenge : PartialChallenge) : String × List SystemChallenge :=
  match findSimilarChallenge challenges challenge with
  | some existingChallenge =>
      (existingChallenge.id,
       replaceFirst (isSimilarTo challenge) (bumpOccurrence now) challenges)
  | none =>
      let fullChallenge : SystemChallenge :=
        { id := freshId,
          type := challenge.type.getD .error,
          severity := challenge.severity.getD .medium,
          description := challenge.description.getD "",
          detectedAt := now,
          context := challenge.context.getD [],
          proposedSolutions := [],
          status := .pending,
          learnings := [],
          source := challenge.source.getD .auto }
      (freshId, challenges ++ [fullChallenge])

/-- The impact weight inside `SelfEvolutionSystem.calculateRiskScore`
(high 1, medium 0.5, low 0.2). -/
def impactWeight : RiskImpact → ℚ
  | .high => 1
  | .medium => 1/2
  | .low => 1/5

/-- `SelfEvolutionSystem.calculateRiskScore`:
`Math.min(riskScore / solution.risks.length, 1)` — a genuine JS division, so
an empty risk list produces NaN. -/
def calculateRiskScore (solution : Solution) : JVal :=
  let riskScore := solution.risks.foldl
    (fun acc risk => acc + risk.probability * impactWeight risk.impact) 0
  JVal.minC (JVal.div (.num riskScore) (.num (solution.risks.length : ℚ))) 1

/-- `SelfEvolutionSystem.evaluateSolutions`: recompute every candidate's
confidence as `historicalSuccess * 0.7 + (1 - riskScore) * 0.3` and sort
descending by the recomputed confidence. -/
def evaluateSolutions (enginePatterns : List (String × Pattern))
    (learnings : List Learning) (solutions : List Solution) : List Solution :=
  let evaluated := solutions.map (fun solution =>
    let historicalSuccess := calculateSuccessRate enginePatterns solution learnings
    let riskScore := calculateRiskScore solution
    let conf := JVal.add (.num (historicalSuccess * (7/10)))
      (JVal.mul (JVal.sub (.num 1) riskScore) (.num (3/10)))
    { solution with confidence := conf })
  jsSortByDesc (·.confidence) evaluated

/-- `SelfEvolutionSystem.shouldAutoExecute`. -/
def shouldAutoExecute (isRunning : Bool) (challenge : SystemChallenge)
    (solution : Solution) : Bool :=
  JVal.gtC solution.confidence (4/5) &&
  !(challenge.severity == .critical) &&
  solution.risks.all (fun r => !(r.impact == .high)) &&
  isRunning

/-- The auto-execution decision at the end of `analyzeChallenge`: with an
empty ranked list the `rankedSolutions[0]` access throws inside the `try`
(caught, challenge marked failed, nothing enqueued); otherwise
`shouldAutoExecute` decides whether the id is pushed on the executionQueue. -/
def analyzeAutoEnqueue (isRunning : Bool) (challenge : SystemChallenge)
    (rankedSolutions : List Solution) : Bool :=
  match rankedSolutions with
  | [] => false
  | top :: _ => shouldAutoExecute isRunning challenge top

/-- `SelfEvolutionSystem.calculateImprovement`, as the `Record` it returns
(insertion order preserved).  ℚ division matches the JS computation whenever
`before.cpu`, `before.memory` and `before.responseTime` are nonzero; the
errorRate denominator is floored by `Math.max(·, 0.1)`. -/
def calculateImprovement (before after : SystemMetrics) : List (String × ℚ) :=
  [("cpuImprovement", ((before.cpu - after.cpu) / before.cpu) * 100),
   ("memoryImprovement", ((before.memory - after.memory) / before.memory) * 100),
   ("responseTimeImprovement",
      ((before.responseTime - after.responseTime) / before.responseTime) * 100),
   ("errorRateImprovement",
      ((before.errorRate - after.errorRate) / (max before.errorRate (1/10))) * 100)]

/-- `SelfEvolutionSystem.isSuccessful` (the `expectedImpact` parameter is
unused by the source body). -/
def isSuccessful (metrics : List (String × ℚ)) (_expectedImpact : Impact) : Bool :=
  let improvements := (metrics.map (·.2)).filter (fun v => 0 < v)
  decide (0 < improvements.length) && improvements.any (fun v => 10 < v)

/-- Observable actions of `executeSolution`, in program order: events emitted
on the system's EventEmitter and the push of the Learning onto
`this.learnings`. -/
inductive EvAction where
  | emitted (name : String)
  | learningAppended (id : String)
  deriving DecidableEq, Repr

/-- The state of `SelfEvolutionSystem` touched by `executeSolution`. -/
structure SESState where
  challenges : List SystemChallenge
  solutions : List (String × List Solution)
  learnings : List Learning
  engine : EngineState
  deriving DecidableEq, Repr

/-- Environment inputs of one `executeSolution` run: the two metric
snapshots returned by the monitor, whether each `executeStep` call throws
(and with what message), the generated learning id, the timestamps and the
pattern id that `updateKnowledge` would mint. -/
structure ExecOracle where
  beforeMetrics : SystemMetrics
  afterMetrics : SystemMetrics
  stepError : ExecutionStep → Option String
  freshLearningId : String
  now : Nat
  elapsed : ℚ
  freshPatternId : String

/-- The `for (const step of steps) await this.executeStep(step, learning)`
loop: each attempted step first records its target on
`learning.affectedComponents` (the first statement of `executeStep`), then
either proceeds or raises, aborting the loop. -/
def runSteps (stepError : ExecutionStep → Option String) :
    List ExecutionStep → Learning → Learning × Option String
  | [], l => (l, none)
  | step :: rest, l =>
      let l' := { l with affectedComponents := l.affectedComponents ++ [step.target] }
      match stepError step with
      | some e => (l', some e)
      | none => runSteps stepError rest l'

/-- The fresh Learning record initialised at the top of `executeSolution`
(outcome seeded as failure, everything else empty). -/
def initialLearning (orc : ExecOracle) (challengeId solutionId : String) : Learning :=
  { id := orc.freshLearningId, challengeId := challengeId,
    solutionId := solutionId, outcome := .failure, metrics := [],
    lessons := [], timestamp := orc.now, affectedComponents := [] }

/-- The `try`/`catch` core of `executeSolution`: run the steps; on clean
completion measure the improvement and classify success/partial; on a thrown
step error record the lesson, run the rollback plan best-effort (a rollback
failure only appends one more lesson) and mark the challenge failed.
Returns the finished Learning and the status stored on the challenge
(a partial outcome leaves the previously-set `executing` status in place,
exactly as the source does). -/
def runSolutionAttempt (orc : ExecOracle) (challenge : SystemChallenge)
    (solution : Solution) (learning0 : Learning) : Learning × ChallengeStatus :=
  let stepRun := runSteps orc.stepError solution.implementation.steps learning0
  match stepRun.2 with
  | none =>
      let metrics := calculateImprovement orc.beforeMetrics orc.afterMetrics
      let l1 := { stepRun.1 with metrics := metrics }
      if isSuccessful metrics solution.estimatedImpact then
        ({ l1 with
             outcome := .success,
             lessons := l1.lessons ++
               ["Successfully resolved: " ++ challenge.description] },
         .resolved)
      else
        ({ l1 with
             outcome := .partialSuccess,
             lessons := l1.lessons ++
               ["Solution partially effective, further optimization needed"] },
         .executing)
  | some e =>
      let l1 := { stepRun.1 with
                    outcome := .failure,
                    lessons := stepRun.1.lessons ++ ["Execution failed: " ++ e] }
      let rollbackRun := runSteps orc.stepError solution.implementation.rollbackPlan l1
      let l2 :=
        match rollbackRun.2 with
        | some _ => { rollbackRun.1 with
                        lessons := rollbackRun.1.lessons ++ ["Rollback also failed"] }
        | none => rollbackRun.1
      (l2, .failed)

/-- `SelfEvolutionSystem.executeSolution`.  Returns the new state and the
ordered trace of observable actions, or the thrown lookup error. -/
def executeSolution (st : SESState) (orc : ExecOracle)
    (challengeId solutionId : String) : Except String (SESState × List EvAction) :=
  let challengeOpt := st.challenges.find? (fun c => c.id == challengeId)
  let solutionOpt := (recGet st.solutions challengeId).bind
    (fun ss => ss.find? (fun s => s.id == solutionId))
  match challengeOpt, solutionOpt with
  | some challenge, some solution =>
      let result := runSolutionAttempt orc challenge solution
        (initialLearning orc challengeId solutionId)
      let learning := result.1
      let solutionDone := { solution with executionTime := some orc.elapsed }
      let challenges2 := st.challenges.map (fun c =>
        if c.id == challengeId then
          { challenge with
              status := result.2,
              learnings := challenge.learnings ++ [learning] }
        else c)
      let solutions2 := recSet st.solutions challengeId
        (((recGet st.solutions challengeId).getD []).map (fun s =>
          if s.id == solutionId then solutionDone else s))
      .ok ({ challenges := challenges2, solutions := solutions2,
             learnings := st.learnings ++ [learning],
             engine := updateKnowledge st.engine orc.freshPatternId learning },
           [.emitted "solution:executing", .learningAppended learning.id,
            .emitted "solution:completed"])
  | _, _ => .error "Challenge or solution not found"

/-! ### KnowledgeTransfer (src/src/transfer/KnowledgeTransfer.ts, first
class in the file) -/

/-- A learning persisted by `recordTransferredLearnings`, with the metadata
the method attaches. -/
structure TransferredLearning where
  learning : Learning
  transferred : Bool
  transferDate : Nat
  originalSystem : String
  deriving DecidableEq, Repr

/-- The local state `receivePackage` can touch: the in-memory transfer
history plus the knowledge-base documents written by
`savePattern` / `saveSolution` / `saveLearning`. -/
structure KTState where
  transferHistory : List (String × List KnowledgeTransferPackage)
  kbPatterns : List Pattern
  kbSolutions : List Solution
  kbLearnings : List TransferredLearning
  deriving DecidableEq, Repr

/-- `KnowledgeTransfer.compatibilityVersion` (initialised to '1.0.0', never
changed). -/
def compatibilityVersion : String := "1.0.0"

/-- `KnowledgeTransfer.isVersionCompatible`: compare the first
dot-separated component of the incoming version with the local one. -/
def isVersionCompatible (version : String) : Bool :=
  (jsSplitChar '.' version).headD "" == (jsSplitChar '.' compatibilityVersion).headD ""

/-- `KnowledgeTransfer.findSimilarPattern` — embedded exactly as written in
the source: the body is `return null`. -/
def findSimilarPattern (_ : Pattern) : Option Pattern := none

/-- `KnowledgeTransfer.integratePatterns`: the duplicate-merge branch is
guarded by the always-null `findSimilarPattern`, so every incoming pattern is
saved as a new document. -/
def integratePatterns (kbPatterns : List Pattern) (patterns : List Pattern) :
    List Pattern :=
  patterns.foldl (fun kb pattern =>
    match findSimilarPattern pattern with
    | some _ => kb
    | none => kb ++ [pattern]) kbPatterns

/-- `KnowledgeTransfer.adaptSolutionToLocal`. -/
def adaptSolutionToLocal (solution : Solution) : Solution :=
  { solution with
      id := "adapted_" ++ solution.id,
      confidence := JVal.mul solution.confidence (.num (9/10)) }

/-- `KnowledgeTransfer.adaptSolutions`. -/
def adaptSolutions (kbSolutions : List Solution) (solutions : List Solution) :
    List Solution :=
  solutions.foldl (fun kb solution => kb ++ [adaptSolutionToLocal solution]) kbSolutions

/-- `KnowledgeTransfer.recordTransferredLearnings`
(`originalSystem` is `learning.id.split('_')[0]`). -/
def recordTransferredLearnings (kbLearnings : List TransferredLearning) (now : Nat)
    (learnings : List Learning) : List TransferredLearning :=
  learnings.foldl (fun kb learning =>
    kb ++ [{ learning := learning, transferred := true, transferDate := now,
             originalSystem := (jsSplitChar '_' learning.id).headD "" }]) kbLearnings

/-- `KnowledgeTransfer.integrateKnowledge`. -/
def integrateKnowledge (st : KTState) (now : Nat)
    (pkg : KnowledgeTransferPackage) : KTState :=
  { st with
      kbPatterns := integratePatterns st.kbPatterns pkg.patterns,
      kbSolutions := adaptSolutions st.kbSolutions pkg.solutions,
      kbLearnings := recordTransferredLearnings st.kbLearnings now pkg.learnings }

/-- `KnowledgeTransfer.receivePackage`: version gate first, then
integration; the incompatible case throws before anything is touched. -/
def receivePackage (st : KTState) (now : Nat)
    (pkg : KnowledgeTransferPackage) : Except String KTState :=
  if isVersionCompatible pkg.version then .ok (integrateKnowledge st now pkg)
  else .error ("Incompatible knowledge version: " ++ pkg.version)

/-! ## Shared lemmas about the stubbed lookups -/

/-- With `findChallengeById` unconditionally null, no learning ever relates
to any pattern. -/
theorem findRelatedPatterns_nil (patterns : List (String × Pattern)) (l : Learning) :
    findRelatedPatterns patterns l = [] := by
  simp [findRelatedPatterns, findChallengeById]

/-- `updateExistingPatterns` never changes a pattern, because every
per-learning related set is empty. -/
theorem updateExistingPatterns_fix (patterns : List (String × Pattern))
    (learnings : List Learning) : updateExistingPatterns patterns learnings = patterns := by
  induction learnings generalizing patterns with
  | nil => rfl
  | cons l ls ih =>
      have hstep : updateExistingPatterns patterns (l :: ls) =
          updateExistingPatterns patterns ls := by
        unfold updateExistingPatterns
        rw [List.foldl_cons]
        congr 1
        simp [findRelatedPatterns_nil]
      rw [hstep, ih]

/-- The stubbed challenge lookup prevents any grouping of successful
learnings. -/
theorem groupSuccessfulLearnings_nil (learnings : List Learning) :
    groupSuccessfulLearnings learnings = [] := by
  have h : ∀ (ls : List Learning) (acc : List (String × List Learning)),
      ls.foldl (fun groups learning =>
        if learning.outcome ≠ .success then groups
        else
          match findChallengeById learning.challengeId with
          | none => groups
          | some challenge =>
              let key := generateGroupKey challenge learning
              match recGet groups key with
              | some g => recSet groups key (g ++ [learning])
              | none => recSet groups key [learning]) acc = acc := by
    intro ls
    induction ls with
    | nil => intro acc; rfl
    | cons l ls ih =>
        intro acc
        simp only [List.foldl_cons]
        by_cases hl : l.outcome = .success
        · simpa [hl, findChallengeById] using ih acc
        · simpa [hl] using ih acc
  exact h learnings []

/-- `extractPatterns` is a no-op returning no fresh patterns: grouping is
empty and pattern updates are vacuous. -/
theorem extractPatterns_fix (st : EngineState) (freshPatternId : String)
    (learnings : List Learning) :
    extractPatterns st freshPatternId learnings = ([], st) := by
  unfold extractPatterns
  rw [groupSuccessfulLearnings_nil]
  simp only [List.foldl_nil, updateExistingPatterns_fix]

/-! ## C10 -/

/-- C10: `LearningEngine.findRelevantSolutions` returns the empty list for
every challenge and every learning history — the challenge lookup used by
`filterRelevantLearnings` always returns null, so no learning is judged
relevant and no historical solution is ever seeded into generation. -/
theorem findRelevantSolutions_always_empty (challenge : SystemChallenge)
    (learnings : List Learning) : findRelevantSolutions challenge learnings = [] := by
  have hfilter : filterRelevantLearnings challenge learnings = [] := by
    simp [filterRelevantLearnings, findChallengeById]
  simp [findRelevantSolutions, hfilter, extractSuccessfulSolutions, jsSortByDesc]

/-! ## C5 -/

/-- C5 (code defect): `extractPatterns` registers no Pattern from any group
whatsoever — in particular not from three or more successful Learnings
sharing (type, severity, outcome) — because `groupSuccessfulLearnings` looks
every learning's challenge up through the stubbed `findChallengeById` and
therefore never forms a group.  The spec's §9 marks this stub behaviour as a
defect: the promotion rule (≥3 members, successRate ≥ 0.7) is written in the
source but unreachable. -/
theorem extractPatterns_never_registers (st : EngineState) (freshPatternId : String)
    (learnings : List Learning) :
    (extractPatterns st freshPatternId learnings).1 = [] ∧
    (extractPatterns st freshPatternId learnings).2 = st := by
  rw [extractPatterns_fix]
  exact ⟨rfl, rfl⟩

/-! ## C4 -/

/-- C4 (amended): `updateKnowledge` appends the Learning to the engine's
history but modifies no Pattern at all: the related-pattern search goes
through the stubbed `findChallengeById`, so the related set is always empty
(the fixed-weight w = 0.1 rule cited by the claim lives in
`updateExistingPatterns`, not in `updateKnowledge`, and is equally vacuous). -/
theorem updateKnowledge_no_pattern_change (st : EngineState) (freshPatternId : String)
    (learning : Learning) :
    (updateKnowledge st freshPatternId learning).patterns = st.patterns ∧
    (updateKnowledge st freshPatternId learning).learningHistory =
      st.learningHistory ++ [learning] := by
  unfold updateKnowledge
  rw [findRelatedPatterns_nil]
  by_cases h : (st.learningHistory.length + 1) % 10 = 0
  · simp [h, extractPatterns_fix]
  · simp [h]

/-- A concrete pattern whose trigger (no metric conditions) matches every
challenge context. -/
def c4pattern : Pattern :=
  { id := "p1", name := "n", description := "d",
    trigger := { metrics := [], logs := [], events := [], combinator := "AND" },
    solution := { name := "s", steps := [], parameters := [], expectedOutcome := "" },
    successRate := 1/2, usageCount := 4 }

/-- A concrete successful learning. -/
def c4learning : Learning :=
  { id := "l1", challengeId := "ch1", solutionId := "s1", outcome := .success,
    metrics := [], lessons := [], timestamp := 0, affectedComponents := [] }

/-- A concrete originating challenge for `c4learning`. -/
def c4challenge : SystemChallenge :=
  { id := "ch1", type := .performance, severity := .high, description := "d",
    detectedAt := 0, context := [], proposedSolutions := [], status := .resolved,
    learnings := [], source := .auto }

/-- C4 counterexample: `c4pattern`'s trigger matches the originating
challenge's context, the learning succeeds, yet `updateKnowledge` leaves the
pattern untouched (successRate 0.5, usageCount 4) instead of applying
successRate×0.9 + 1×0.1 = 0.55 with an incremented usage count. -/
theorem updateKnowledge_claim_counterexample :
    matchesPatternTrigger c4challenge c4pattern.trigger = true ∧
    (updateKnowledge { patterns := [("p1", c4pattern)], learningHistory := [] }
        "fresh" c4learning).patterns = [("p1", c4pattern)] ∧
    c4pattern.successRate = 1/2 ∧ c4pattern.usageCount = 4 ∧
    ¬((1 : ℚ)/2 = (1/2) * (1 - 1/10) + 1 * (1/10)) := by
  refine ⟨by decide, ?_, rfl, by decide, by norm_num⟩
  unfold updateKnowledge
  rw [findRelatedPatterns_nil]
  simp

/-! ## C8 -/

/-- C8: `receivePackage` throws the incompatible-version error exactly when
the incoming major version component (the first `'.'`-separated field)
differs from the local `"1.0.0"`'s major component, and in that case it
returns before touching any local state; a `"2.0.0"` package is rejected
while `"1.3.0"` is accepted and integrated. -/
theorem receivePackage_version_gate (st : KTState) (now : Nat)
    (pkg : KnowledgeTransferPackage) :
    ((∃ e, receivePackage st now pkg = .error e) ↔
      (jsSplitChar '.' pkg.version).headD "" ≠
        (jsSplitChar '.' compatibilityVersion).headD "") ∧
    receivePackage st now pkg =
      (if (jsSplitChar '.' pkg.version).headD "" == "1" then
        .ok (integrateKnowledge st now pkg)
      else .error ("Incompatible knowledge version: " ++ pkg.version)) ∧
    receivePackage st now { pkg with version := "2.0.0" } =
      .error "Incompatible knowledge version: 2.0.0" ∧
    receivePackage st now { pkg with version := "1.3.0" } =
      .ok (integrateKnowledge st now { pkg with version := "1.3.0" }) := by
  have hlocal : (jsSplitChar '.' compatibilityVersion).headD "" = "1" := by decide
  have key : receivePackage st now pkg =
      (if (jsSplitChar '.' pkg.version).headD "" == "1" then
        Except.ok (integrateKnowledge st now pkg)
      else Except.error ("Incompatible knowledge version: " ++ pkg.version)) := by
    unfold receivePackage isVersionCompatible
    rw [hlocal]
  refine ⟨?_, key, ?_, ?_⟩
  · rw [key, hlocal]
    by_cases h : (jsSplitChar '.' pkg.version).headD "" = "1"
    · rw [show ((jsSplitChar '.' pkg.version).headD "" == "1") = true from by
        rw [h]; exact beq_self_eq_true _]
      simp only [if_true]
      constructor
      · rintro ⟨e, he⟩
        cases he
      · intro hne
        exact absurd (by simpa using h) hne
    · rw [show ((jsSplitChar '.' pkg.version).headD "" == "1") = false from
        beq_eq_false_iff_ne.mpr h]
      rw [if_neg (by simp)]
      constructor
      · intro _
        simpa using h
      · intro _
        exact ⟨_, rfl⟩
  · unfold receivePackage isVersionCompatible
    simp [jsSplitChar, splitChars, compatibilityVersion]
  · unfold receivePackage isVersionCompatible
    simp [jsSplitChar, splitChars, compatibilityVersion]

/-! ## C9 -/

/-- C9: every pattern-based and template-based generated Solution carries an
empty risks list; for any Solution with an empty risks list the risk
computation divides 0 by 0, so the recomputed confidence is NaN rather than
a number in [0, 1], and such a Solution can never pass the
`confidence > 0.8` auto-execution check. -/
theorem emptyRisks_confidence_nan
    (s : Solution) (pats : List (String × Pattern)) (ls : List Learning)
    (fid : String) (now : Nat) (ch ch2 : SystemChallenge) (pat : Pattern)
    (tpl : SolutionTemplateDef) (run : Bool) :
    (createSolutionFromPattern fid now ch pat).risks = [] ∧
    (createSolutionFromTemplate fid now ch tpl).risks = [] ∧
    (s.risks = [] →
      calculateRiskScore s = .nan ∧
      evaluateSolutions pats ls [s] = [{ s with confidence := JVal.nan }] ∧
      shouldAutoExecute run ch2 { s with confidence := JVal.nan } = false) := by
  refine ⟨rfl, rfl, fun h => ?_⟩
  have hrisk : calculateRiskScore s = .nan := by
    simp [calculateRiskScore, h, JVal.div, JVal.minC]
  refine ⟨hrisk, ?_, ?_⟩
  · simp [evaluateSolutions, hrisk, JVal.sub, JVal.neg, JVal.add, JVal.mul,
      jsSortByDesc, List.mergeSort]
  · simp [shouldAutoExecute, JVal.gtC]

/-- A concrete riskless solution for the C9 witness. -/
def c9sol : Solution :=
  { id := "s9", challengeId := "c9", title := "t", description := "d",
    implementation :=
      { type := .code, steps := [], rollbackPlan := [], estimatedDuration := 0 },
    confidence := .num 0,
    estimatedImpact :=
      { performance := 0, reliability := 0, userExperience := 0, cost := 0,
        security := 0 },
    prerequisites := [], risks := [], createdAt := 0, executionTime := none }

/-- A concrete challenge for the C9 witness. -/
def c9ch : SystemChallenge :=
  { id := "c9", type := .performance, severity := .high, description := "d",
    detectedAt := 0, context := [], proposedSolutions := [], status := .pending,
    learnings := [], source := .auto }

/-- A concrete pattern for the C9 witness. -/
def c9pat : Pattern :=
  { id := "p9", name := "n", description := "d",
    trigger := { metrics := [], logs := [], events := [], combinator := "AND" },
    solution := { name := "s", steps := [], parameters := [], expectedOutcome := "" },
    successRate := 1, usageCount := 1 }

/-- A concrete template for the C9 witness. -/
def c9tpl : SolutionTemplateDef := { title := "t", steps := [] }

/-- Witness for C9 at a concrete riskless solution. -/
theorem emptyRisks_confidence_nan_witness :
    c9sol.risks = [] ∧
    calculateRiskScore c9sol = .nan ∧
    evaluateSolutions [] [] [c9sol] = [{ c9sol with confidence := JVal.nan }] ∧
    shouldAutoExecute true c9ch { c9sol with confidence := JVal.nan } = false := by
  have h := (emptyRisks_confidence_nan c9sol [] [] "f" 0 c9ch c9ch c9pat c9tpl true).2.2 rfl
  exact ⟨rfl, h.1, h.2.1, h.2.2⟩

/-! ## C3 -/

/-- A concrete solution with confidence 0.81 and a single low-impact risk. -/
def c3sol : Solution :=
  { id := "s3", challengeId := "c3", title := "t", description := "d",
    implementation :=
      { type := .code, steps := [], rollbackPlan := [], estimatedDuration := 0 },
    confidence := .num (81/100),
    estimatedImpact :=
      { performance := 0, reliability := 0, userExperience := 0, cost := 0,
        security := 0 },
    prerequisites := [],
    risks := [{ description := "r", probability := 0, impact := .low,
                mitigation := "m" }],
    createdAt := 0, executionTime := none }

/-- A concrete high-severity challenge. -/
def c3chHigh : SystemChallenge :=
  { id := "c3", type := .performance, severity := .high, description := "d",
    detectedAt := 0, context := [], proposedSolutions := [], status := .ready,
    learnings := [], source := .auto }

/-- The same challenge at critical severity. -/
def c3chCrit : SystemChallenge :=
  { c3chHigh with severity := .critical }

/-- C3 (amended): a challenge with a non-empty ranked list is auto-enqueued
iff its top candidate's confidence exceeds 0.8, the severity is not
critical, no risk of the top candidate has high impact, AND the system's
`isRunning` flag is set; with the system running, a 0.81-confidence,
high-severity, all-low-risk instance is enqueued while its critical-severity
twin is not. -/
theorem autoEnqueue_gate (run : Bool) (challenge : SystemChallenge)
    (top : Solution) (rest : List Solution) :
    (analyzeAutoEnqueue run challenge (top :: rest) = true ↔
      (JVal.gtC top.confidence (4/5) = true ∧ challenge.severity ≠ .critical ∧
       (∀ r ∈ top.risks, r.impact ≠ .high) ∧ run = true)) ∧
    analyzeAutoEnqueue run challenge [] = false ∧
    analyzeAutoEnqueue true c3chHigh [c3sol] = true ∧
    analyzeAutoEnqueue true c3chCrit [c3sol] = false := by
  refine ⟨?_, rfl, ?_, ?_⟩
  · simp [analyzeAutoEnqueue, shouldAutoExecute, List.all_eq_true, and_assoc]
  · simp [analyzeAutoEnqueue, shouldAutoExecute, c3chHigh, c3sol, JVal.gtC]
    norm_num
  · simp [analyzeAutoEnqueue, shouldAutoExecute, c3chCrit, c3chHigh]

/-- C3 counterexample: the claim's three conditions hold (confidence 0.81 >
0.8, severity high, all risks low) yet nothing is enqueued, because the
source gate also requires `this.isRunning`, which is false after `stop()`. -/
theorem autoEnqueue_claim_counterexample :
    analyzeAutoEnqueue false c3chHigh [c3sol] = false ∧
    JVal.gtC c3sol.confidence (4/5) = true ∧
    c3chHigh.severity ≠ .critical ∧
    (∀ r ∈ c3sol.risks, r.impact ≠ .high) := by
  refine ⟨?_, ?_, by decide, by decide⟩
  · simp [analyzeAutoEnqueue, shouldAutoExecute]
  · show JVal.gtC (.num (81/100)) (4/5) = true
    simp [JVal.gtC]
    norm_num

/-! ## C7 -/

/-- The pre-execution metric snapshot of the spec's end-to-end scenario. -/
def c7before : SystemMetrics :=
  { cpu := 92, memory := 50, diskUsage := 10, networkLatency := 5,
    errorRate := 2, responseTime := 500, activeUsers := 10,
    videoProcessingQueue := 3 }

/-- The post-execution snapshot: cpu dropped to 60, everything else equal. -/
def c7after : SystemMetrics := { c7before with cpu := 60 }

/-- C7: each of the cpu/memory/responseTime improvements equals
(before − after)/before × 100, the errorRate denominator is floored by the
0.1 epsilon, success is declared exactly when some improvement metric
exceeds +10, and the 92 → 60 cpu drop yields cpuImprovement 800/23 ≈ 34.8
with a success verdict. -/
theorem calculateImprovement_success_spec (before after : SystemMetrics)
    (imp : Impact) (ms : List (String × ℚ)) :
    recGet (calculateImprovement before after) "cpuImprovement" =
      some (((before.cpu - after.cpu) / before.cpu) * 100) ∧
    recGet (calculateImprovement before after) "memoryImprovement" =
      some (((before.memory - after.memory) / before.memory) * 100) ∧
    recGet (calculateImprovement before after) "responseTimeImprovement" =
      some (((before.responseTime - after.responseTime) / before.responseTime) * 100) ∧
    recGet (calculateImprovement before after) "errorRateImprovement" =
      some (((before.errorRate - after.errorRate) / (max before.errorRate (1/10))) * 100) ∧
    (isSuccessful ms imp = true ↔ ∃ v ∈ ms.map (·.2), 10 < v) ∧
    recGet (calculateImprovement c7before c7after) "cpuImprovement" =
      some (800/23) ∧
    ((347 : ℚ)/10 < 800/23 ∧ (800 : ℚ)/23 < 349/10) ∧
    isSuccessful (calculateImprovement c7before c7after) imp = true := by
  refine ⟨?_, ?_, ?_, ?_, ?_, ?_, ?_, ?_⟩
  · simp [calculateImprovement, recGet]
  · simp [calculateImprovement, recGet]
  · simp [calculateImprovement, recGet]
  · simp [calculateImprovement, recGet]
  · constructor
    · intro h
      simp only [isSuccessful, Bool.and_eq_true, decide_eq_true_eq,
        List.any_eq_true, List.mem_filter] at h
      obtain ⟨-, v, ⟨hv1, -⟩, hv2⟩ := h
      exact ⟨v, hv1, by simpa using hv2⟩
    · rintro ⟨v, hv1, hv2⟩
      simp only [isSuccessful, Bool.and_eq_true, decide_eq_true_eq,
        List.any_eq_true, List.mem_filter, List.length_pos]
      have hv0 : (0 : ℚ) < v := lt_trans (by norm_num) hv2
      refine ⟨?_, v, ⟨hv1, by simpa using hv0⟩, by simpa using hv2⟩
      intro hnil
      have : v ∈ (ms.map (·.2)).filter (fun v => decide (0 < v)) :=
        List.mem_filter.mpr ⟨hv1, by simpa using hv0⟩
      simp [hnil] at this
  · simp [calculateImprovement, recGet, c7before, c7after]
    norm_num
  · norm_num
  · simp [calculateImprovement, isSuccessful, c7before, c7after]
    norm_num

/-! ## C2 -/

/-- The summed risk weight is nonnegative when every probability is. -/
theorem risks_foldl_nonneg (risks : List Risk)
    (h : ∀ r ∈ risks, 0 ≤ r.probability) :
    0 ≤ risks.foldl (fun a r => a + r.probability * impactWeight r.impact) 0 := by
  have key : ∀ (l : List Risk) (init : ℚ), (∀ r ∈ l, 0 ≤ r.probability) → 0 ≤ init →
      0 ≤ l.foldl (fun a r => a + r.probability * impactWeight r.impact) init := by
    intro l
    induction l with
    | nil => intro init _ h0; simpa using h0
    | cons r rest ih =>
        intro init hl h0
        rw [List.foldl_cons]
        refine ih _ (fun x hx => hl x (List.mem_cons_of_mem r hx)) ?_
        have hw : 0 ≤ impactWeight r.impact := by
          cases r.impact <;> norm_num [impactWeight]
        have hp : 0 ≤ r.probability := hl r (List.mem_cons_self r rest)
        positivity
  exact key risks 0 h le_rfl

/-- `calculateSuccessRate` never looks at the stored confidence. -/
theorem calculateSuccessRate_confidence_irrel (pats : List (String × Pattern))
    (s : Solution) (c : JVal) (ls : List Learning) :
    calculateSuccessRate pats { s with confidence := c } ls =
      calculateSuccessRate pats s ls := rfl

/-- C2: every candidate coming out of `evaluateSolutions` carries the
recomputed confidence 0.7 × historicalSuccess + 0.3 × (1 − riskScore) with
riskScore the impact-weighted probability sum divided by the risk count and
clamped to [0, 1] (for a non-empty risk list with nonnegative
probabilities), and the generator-assigned confidence has no effect on the
evaluator's output. -/
theorem evaluateSolutions_confidence_spec (pats : List (String × Pattern))
    (ls : List Learning) (sols : List Solution) :
    (∀ s ∈ evaluateSolutions pats ls sols, s.risks ≠ [] →
      (∀ r ∈ s.risks, 0 ≤ r.probability) →
      s.confidence = .num ((7/10) * calculateSuccessRate pats s ls +
        (3/10) * (1 - max 0 (min
          ((s.risks.foldl (fun a r => a + r.probability * impactWeight r.impact) 0) /
            (s.risks.length : ℚ)) 1)))) ∧
    (∀ q, evaluateSolutions pats ls (sols.map (fun s => { s with confidence := q })) =
      evaluateSolutions pats ls sols) := by
  constructor
  · intro s hs hne hprob
    have hmem : s ∈ sols.map (fun solution =>
        let historicalSuccess := calculateSuccessRate pats solution ls
        let riskScore := calculateRiskScore solution
        let conf := JVal.add (.num (historicalSuccess * (7/10)))
          (JVal.mul (JVal.sub (.num 1) riskScore) (.num (3/10)))
        { solution with confidence := conf }) := by
      have := hs
      simp only [evaluateSolutions, jsSortByDesc] at this
      exact List.mem_mergeSort.mp this
    obtain ⟨s0, hs0, rfl⟩ := List.mem_map.mp hmem
    have hne0 : s0.risks ≠ [] := hne
    have hlen : ((s0.risks.length : ℚ)) ≠ 0 := by
      have : s0.risks.length ≠ 0 := by
        simpa [List.length_eq_zero] using hne0
      exact_mod_cast this
    have hsum : 0 ≤ s0.risks.foldl
        (fun a r => a + r.probability * impactWeight r.impact) 0 :=
      risks_foldl_nonneg s0.risks hprob
    have hq : 0 ≤ (s0.risks.foldl
        (fun a r => a + r.probability * impactWeight r.impact) 0) /
        (s0.risks.length : ℚ) := by
      have : (0 : ℚ) ≤ (s0.risks.length : ℚ) := by positivity
      exact div_nonneg hsum this
    have hrisk : calculateRiskScore s0 = .num (min
        ((s0.risks.foldl (fun a r => a + r.probability * impactWeight r.impact) 0) /
          (s0.risks.length : ℚ)) 1) := by
      simp [calculateRiskScore, JVal.div, JVal.minC, hlen]
    have hmax : max 0 (min
        ((s0.risks.foldl (fun a r => a + r.probability * impactWeight r.impact) 0) /
          (s0.risks.length : ℚ)) 1) = min
        ((s0.risks.foldl (fun a r => a + r.probability * impactWeight r.impact) 0) /
          (s0.risks.length : ℚ)) 1 := by
      exact max_eq_right (le_min hq zero_le_one)
    show JVal.add (.num (calculateSuccessRate pats s0 ls * (7/10)))
        (JVal.mul (JVal.sub (.num 1) (calculateRiskScore s0)) (.num (3/10))) = _
    rw [hrisk, hmax]
    simp only [JVal.sub, JVal.neg, JVal.add, JVal.mul, JVal.num.injEq,
      calculateSuccessRate_confidence_irrel]
    ring
  · intro q
    simp only [evaluateSolutions, jsSortByDesc, List.map_map]
    rfl

/-- A concrete one-risk solution for the C2 witness. -/
def c2sol : Solution :=
  { id := "s2", challengeId := "c2", title := "t", description := "d",
    implementation :=
      { type := .code, steps := [], rollbackPlan := [], estimatedDuration := 0 },
    confidence := .num 0,
    estimatedImpact :=
      { performance := 0, reliability := 0, userExperience := 0, cost := 0,
        security := 0 },
    prerequisites := [],
    risks := [{ description := "r", probability := 1/2, impact := .medium,
                mitigation := "m" }],
    createdAt := 0, executionTime := none }

/-- Witness for C2: with no learnings and no patterns the historical success
defaults to 0.5, the riskScore is 0.25, and the evaluator emits confidence
0.5×0.7 + 0.75×0.3 = 23/40 — matching the claimed formula. -/
theorem evaluateSolutions_confidence_spec_witness :
    ({ c2sol with confidence := .num (23/40) } : Solution) ∈
      evaluateSolutions [] [] [c2sol] ∧
    ({ c2sol with confidence := .num (23/40) } : Solution).risks ≠ [] ∧
    (∀ r ∈ ({ c2sol with confidence := .num (23/40) } : Solution).risks,
      0 ≤ r.probability) ∧
    ({ c2sol with confidence := .num (23/40) } : Solution).confidence =
      .num ((7/10) * calculateSuccessRate []
          ({ c2sol with confidence := .num (23/40) } : Solution) [] +
        (3/10) * (1 - max 0 (min
          ((({ c2sol with confidence := .num (23/40) } : Solution).risks.foldl
              (fun a r => a + r.probability * impactWeight r.impact) 0) /
            ((({ c2sol with confidence := .num (23/40) } : Solution).risks.length : ℚ))) 1))) := by
  have hX : evaluateSolutions [] [] [c2sol] =
      [{ c2sol with confidence := .num (23/40) }] := by
    simp only [evaluateSolutions, jsSortByDesc, List.map_cons, List.map_nil]
    have hconf : JVal.add
        (.num (calculateSuccessRate [] c2sol [] * (7/10)))
        (JVal.mul (JVal.sub (.num 1) (calculateRiskScore c2sol)) (.num (3/10))) =
        .num (23/40) := by
      have hhs : calculateSuccessRate [] c2sol [] = 1/2 := by
        simp [calculateSuccessRate, estimateSuccessRateFromPatterns, c2sol]
      have hrs : calculateRiskScore c2sol = .num (1/4) := by
        simp only [calculateRiskScore, c2sol, List.foldl_cons, List.foldl_nil,
          List.length_cons, List.length_nil, impactWeight]
        norm_num [JVal.div, JVal.minC]
      rw [hhs, hrs]
      simp only [JVal.sub, JVal.neg, JVal.add, JVal.mul, JVal.num.injEq]
      norm_num
    rw [hconf]
    exact List.mergeSort_singleton _
  have hmem : ({ c2sol with confidence := .num (23/40) } : Solution) ∈
      evaluateSolutions [] [] [c2sol] := by
    rw [hX]; exact List.mem_singleton_self _
  refine ⟨hmem, by simp [c2sol], ?_, ?_⟩
  · intro r hr
    simp only [c2sol, List.mem_singleton] at hr
    rw [hr]
    norm_num
  · exact (evaluateSolutions_confidence_spec [] [] [c2sol]).1 _ hmem
      (by simp [c2sol])
      (by intro r hr
          simp only [c2sol, List.mem_singleton] at hr
          rw [hr]
          norm_num)

/-! ## C6 -/

/-- The Learning produced by one `executeSolution` run (the first component
of the try/catch core). -/
def attemptLearning (orc : ExecOracle) (challenge : SystemChallenge)
    (solution : Solution) (challengeId solutionId : String) : Learning :=
  (runSolutionAttempt orc challenge solution
    (initialLearning orc challengeId solutionId)).1

/-- The Learning as it stands when the catch block starts the rollback:
steps attempted, outcome failure, the thrown message recorded. -/
def failedLearning (orc : ExecOracle) (challengeId solutionId : String)
    (solution : Solution) (e : String) : Learning :=
  { (runSteps orc.stepError solution.implementation.steps
      (initialLearning orc challengeId solutionId)).1 with
    outcome := .failure,
    lessons := (runSteps orc.stepError solution.implementation.steps
      (initialLearning orc challengeId solutionId)).1.lessons ++
      ["Execution failed: " ++ e] }

/-- `runSteps` only accumulates affected components: every other field of
the Learning is preserved. -/
theorem runSteps_fields (se : ExecutionStep → Option String) :
    ∀ (steps : List ExecutionStep) (l : Learning),
      (runSteps se steps l).1.lessons = l.lessons ∧
      (runSteps se steps l).1.outcome = l.outcome ∧
      (runSteps se steps l).1.metrics = l.metrics ∧
      (runSteps se steps l).1.id = l.id := by
  intro steps
  induction steps with
  | nil => intro l; exact ⟨rfl, rfl, rfl, rfl⟩
  | cons step rest ih =>
      intro l
      unfold runSteps
      cases se step with
      | some e => exact ⟨rfl, rfl, rfl, rfl⟩
      | none => exact ih _

/-- C6: whenever the challenge and solution lookups succeed,
`executeSolution` returns normally (never re-throws), emits exactly the
trace executing-event, learning-append, completed-event — so exactly one
Learning is appended to the history, before the completion event — stores
the updated challenge, and on a thrown step error the Learning is a failure
carrying the error lesson, the challenge status becomes `failed`, and a
rollback failure merely appends the extra lesson. -/
theorem executeSolution_one_learning_spec
    (st : SESState) (orc : ExecOracle) (challengeId solutionId : String)
    (challenge : SystemChallenge) (solution : Solution)
    (hch : st.challenges.find? (fun c => c.id == challengeId) = some challenge)
    (hsol : (recGet st.solutions challengeId).bind
      (fun ss => ss.find? (fun s => s.id == solutionId)) = some solution) :
    ∃ st2,
      executeSolution st orc challengeId solutionId =
        .ok (st2,
          [.emitted "solution:executing",
           .learningAppended (attemptLearning orc challenge solution challengeId solutionId).id,
           .emitted "solution:completed"]) ∧
      st2.learnings = st.learnings ++
        [attemptLearning orc challenge solution challengeId solutionId] ∧
      { challenge with
          status := (runSolutionAttempt orc challenge solution
            (initialLearning orc challengeId solutionId)).2,
          learnings := challenge.learnings ++
            [attemptLearning orc challenge solution challengeId solutionId] } ∈
        st2.challenges ∧
      (∀ e, (runSteps orc.stepError solution.implementation.steps
          (initialLearning orc challengeId solutionId)).2 = some e →
        (attemptLearning orc challenge solution challengeId solutionId).outcome =
          .failure ∧
        ("Execution failed: " ++ e) ∈
          (attemptLearning orc challenge solution challengeId solutionId).lessons ∧
        (runSolutionAttempt orc challenge solution
          (initialLearning orc challengeId solutionId)).2 = .failed ∧
        (∀ e2, (runSteps orc.stepError solution.implementation.rollbackPlan
            (failedLearning orc challengeId solutionId solution e)).2 = some e2 →
          "Rollback also failed" ∈
            (attemptLearning orc challenge solution challengeId solutionId).lessons)) ∧
      (∀ heq : (runSteps orc.stepError solution.implementation.steps
          (initialLearning orc challengeId solutionId)).2 = none,
        ((attemptLearning orc challenge solution challengeId solutionId).outcome =
            .success ∧
          (runSolutionAttempt orc challenge solution
            (initialLearning orc challengeId solutionId)).2 = .resolved) ∨
        ((attemptLearning orc challenge solution challengeId solutionId).outcome =
            .partialSuccess ∧
          (runSolutionAttempt orc challenge solution
            (initialLearning orc challengeId solutionId)).2 = .executing)) := by
  refine ⟨{ challenges :=
              st.challenges.map (fun c =>
                if c.id == challengeId then
                  { challenge with
                      status := (runSolutionAttempt orc challenge solution
                        (initialLearning orc challengeId solutionId)).2,
                      learnings := challenge.learnings ++
                        [attemptLearning orc challenge solution challengeId solutionId] }
                else c),
            solutions :=
              recSet st.solutions challengeId
                (((recGet st.solutions challengeId).getD []).map (fun s =>
                  if s.id == solutionId then
                    { solution with executionTime := some orc.elapsed }
                  else s)),
            learnings :=
              st.learnings ++
                [attemptLearning orc challenge solution challengeId solutionId],
            engine :=
              updateKnowledge st.engine orc.freshPatternId
                (attemptLearning orc challenge solution challengeId solutionId) },
    ?_, rfl, ?_, ?_, ?_⟩
  · simp only [executeSolution, hch, hsol, attemptLearning]
  · have hpred : (challenge.id == challengeId) = true := by
      have h := List.find?_some hch
      simpa using h
    have hmemc : challenge ∈ st.challenges := List.mem_of_find?_eq_some hch
    refine List.mem_map.mpr ⟨challenge, hmemc, ?_⟩
    rw [hpred]
    rfl
  · intro e he
    have hfields := runSteps_fields orc.stepError
      solution.implementation.rollbackPlan
      (failedLearning orc challengeId solutionId solution e)
    have hattempt : attemptLearning orc challenge solution challengeId solutionId =
        (match (runSteps orc.stepError solution.implementation.rollbackPlan
            (failedLearning orc challengeId solutionId solution e)).2 with
         | some _ =>
            { (runSteps orc.stepError solution.implementation.rollbackPlan
                (failedLearning orc challengeId solutionId solution e)).1 with
              lessons := (runSteps orc.stepError solution.implementation.rollbackPlan
                (failedLearning orc challengeId solutionId solution e)).1.lessons ++
                ["Rollback also failed"] }
         | none => (runSteps orc.stepError solution.implementation.rollbackPlan
            (failedLearning orc challengeId solutionId solution e)).1) := by
      simp only [attemptLearning, runSolutionAttempt, he, failedLearning]
    have hstatus : (runSolutionAttempt orc challenge solution
        (initialLearning orc challengeId solutionId)).2 = .failed := by
      simp only [runSolutionAttempt, he]
    refine ⟨?_, ?_, hstatus, ?_⟩
    · rw [hattempt]
      cases hrb : (runSteps orc.stepError solution.implementation.rollbackPlan
          (failedLearning orc challengeId solutionId solution e)).2 with
      | some e2 => simpa [hrb] using hfields.2.1
      | none => simpa [hrb] using hfields.2.1
    · rw [hattempt]
      have hles : (runSteps orc.stepError solution.implementation.rollbackPlan
          (failedLearning orc challengeId solutionId solution e)).1.lessons =
          (runSteps orc.stepError solution.implementation.steps
            (initialLearning orc challengeId solutionId)).1.lessons ++
            ["Execution failed: " ++ e] := hfields.1
      cases hrb : (runSteps orc.stepError solution.implementation.rollbackPlan
          (failedLearning orc challengeId solutionId solution e)).2 with
      | some e2 =>
          simp only [hrb, hles]
          exact List.mem_append_left _ (List.mem_append_right _ (List.mem_singleton_self _))
      | none =>
          simp only [hrb, hles]
          exact List.mem_append_right _ (List.mem_singleton_self _)
    · intro e2 he2
      rw [hattempt, he2]
      have hles : (runSteps orc.stepError solution.implementation.rollbackPlan
          (failedLearning orc challengeId solutionId solution e)).1.lessons =
          (runSteps orc.stepError solution.implementation.steps
            (initialLearning orc challengeId solutionId)).1.lessons ++
            ["Execution failed: " ++ e] := hfields.1
      exact List.mem_append_right _ (List.mem_singleton_self _)
  · intro heq
    by_cases hsucc : isSuccessful (calculateImprovement orc.beforeMetrics
        orc.afterMetrics) solution.estimatedImpact
    · left
      constructor
      · simp only [attemptLearning, runSolutionAttempt, heq]
        simp [hsucc]
      · simp only [runSolutionAttempt, heq]
        simp [hsucc]
    · right
      constructor
      · simp only [attemptLearning, runSolutionAttempt, heq]
        simp [hsucc]
      · simp only [runSolutionAttempt, heq]
        simp [hsucc]

/-- Metrics snapshot for the C6 witness run. -/
def c6metrics : SystemMetrics :=
  { cpu := 50, memory := 50, diskUsage := 0, networkLatency := 0,
    errorRate := 1, responseTime := 100, activeUsers := 0,
    videoProcessingQueue := 0 }

/-- The single (failing) implementation step of the C6 witness. -/
def c6step1 : ExecutionStep :=
  { order := 1, action := "a", target := "t1", parameters := [], validation := [] }

/-- The single (also failing) rollback step of the C6 witness. -/
def c6step2 : ExecutionStep :=
  { order := 1, action := "r", target := "t2", parameters := [], validation := [] }

/-- The C6 witness solution: one step, one rollback step. -/
def c6sol : Solution :=
  { id := "s1", challengeId := "c1", title := "t", description := "d",
    implementation :=
      { type := .code, steps := [c6step1], rollbackPlan := [c6step2],
        estimatedDuration := 0 },
    confidence := .num 0,
    estimatedImpact :=
      { performance := 0, reliability := 0, userExperience := 0, cost := 0,
        security := 0 },
    prerequisites := [], risks := [], createdAt := 0, executionTime := none }

/-- The C6 witness challenge. -/
def c6ch : SystemChallenge :=
  { id := "c1", type := .error, severity := .high, description := "boom",
    detectedAt := 0, context := [], proposedSolutions := [], status := .ready,
    learnings := [], source := .auto }

/-- The C6 witness system state. -/
def c6st : SESState :=
  { challenges := [c6ch], solutions := [("c1", [c6sol])], learnings := [],
    engine := { patterns := [], learningHistory := [] } }

/-- The C6 witness oracle: the implementation step and the rollback step
both throw. -/
def c6orc : ExecOracle :=
  { beforeMetrics := c6metrics, afterMetrics := c6metrics,
    stepError := fun step =>
      if step.target == "t1" then some "step exploded" else some "rollback exploded",
    freshLearningId := "L1", now := 7, elapsed := 3, freshPatternId := "P1" }

/-- Witness for C6: the concrete doomed run returns normally with the
executing/append/completed trace, appends exactly one failure Learning
carrying both the execution-failure and the rollback-failure lessons, and
marks the challenge failed. -/
theorem executeSolution_one_learning_spec_witness :
    (∃ st2, executeSolution c6st c6orc "c1" "s1" =
        .ok (st2,
          [.emitted "solution:executing",
           .learningAppended (attemptLearning c6orc c6ch c6sol "c1" "s1").id,
           .emitted "solution:completed"]) ∧
      st2.learnings = c6st.learnings ++
        [attemptLearning c6orc c6ch c6sol "c1" "s1"]) ∧
    (attemptLearning c6orc c6ch c6sol "c1" "s1").outcome = .failure ∧
    ("Execution failed: " ++ "step exploded") ∈
      (attemptLearning c6orc c6ch c6sol "c1" "s1").lessons ∧
    (runSolutionAttempt c6orc c6ch c6sol (initialLearning c6orc "c1" "s1")).2 =
      .failed ∧
    "Rollback also failed" ∈ (attemptLearning c6orc c6ch c6sol "c1" "s1").lessons := by
  obtain ⟨st2, h1, h2, h3, h4, h5⟩ :=
    executeSolution_one_learning_spec c6st c6orc "c1" "s1" c6ch c6sol
      (by decide) (by decide)
  have hsteps : (runSteps c6orc.stepError c6sol.implementation.steps
      (initialLearning c6orc "c1" "s1")).2 = some "step exploded" := by decide
  have hroll : (runSteps c6orc.stepError c6sol.implementation.rollbackPlan
      (failedLearning c6orc "c1" "s1" c6sol "step exploded")).2 =
      some "rollback exploded" := by decide
  obtain ⟨ho, hl, hs, hrb⟩ := h4 "step exploded" hsteps
  exact ⟨⟨st2, h1, h2⟩, ho, hl, hs, hrb "rollback exploded" hroll⟩

/-! ## C1 -/

/-- A successful `find?` splits the list, and `replaceFirst` rewrites
exactly the found element. -/
theorem replaceFirst_split {α} (pred : α → Bool) (f : α → α) :
    ∀ (l : List α) (c : α), l.find? pred = some c →
      ∃ pre post, l = pre ++ c :: post ∧
        replaceFirst pred f l = pre ++ f c :: post ∧
        ∀ x ∈ pre, pred x = false := by
  intro l
  induction l with
  | nil => intro c h; cases h
  | cons a rest ih =>
      intro c h
      by_cases ha : pred a
      · rw [List.find?_cons_of_pos _ ha] at h
        obtain rfl : a = c := by injection h
        refine ⟨[], rest, rfl, ?_, by intro x hx; cases hx⟩
        unfold replaceFirst
        rw [if_pos ha]
        rfl
      · rw [List.find?_cons_of_neg _ (by simpa using ha)] at h
        obtain ⟨pre, post, h1, h2, h3⟩ := ih c h
        refine ⟨a :: pre, post, by rw [List.cons_append, ← h1], ?_, ?_⟩
        · unfold replaceFirst
          rw [if_neg (by simpa using ha), h2]
          rfl
        · intro x hx
          rcases List.mem_cons.mp hx with rfl | hx2
          · simpa using ha
          · exact h3 x hx2

/-- C1 (amended): `recordChallenge` deduplicates against the first stored
challenge of the same type, with status not resolved, whose description has
lower-cased word-set Jaccard similarity STRICTLY greater than 0.8 with the
new description; a hit updates only that challenge's occurrence counter and
last-seen timestamp and returns its id without storing anything new, a miss
appends a fresh record.  Consequently two same-type recordings whose
descriptions' similarity exceeds 0.8 leave exactly one stored Challenge,
and at similarity ≤ 0.8 (in particular at exactly 80%) they leave two. -/
theorem recordChallenge_dedup_spec :
    (∀ (p : PartialChallenge) (c : SystemChallenge),
      isSimilarTo p c = true ↔
        ((∃ t, p.type = some t ∧ c.type = t) ∧ c.status ≠ .resolved ∧
          (4 : ℚ)/5 < calculateSimilarity c.description (p.description.getD ""))) ∧
    (∀ (challenges : List SystemChallenge) (now : Nat) (freshId : String)
        (p : PartialChallenge) (c : SystemChallenge),
      findSimilarChallenge challenges p = some c →
        (recordChallenge challenges now freshId p).1 = c.id ∧
        (∃ pre post, challenges = pre ++ c :: post ∧
          (recordChallenge challenges now freshId p).2 =
            pre ++ bumpOccurrence now c :: post ∧
          ∀ x ∈ pre, isSimilarTo p x = false) ∧
        (recordChallenge challenges now freshId p).2.length = challenges.length) ∧
    (∀ (challenges : List SystemChallenge) (now : Nat) (freshId : String)
        (p : PartialChallenge),
      findSimilarChallenge challenges p = none →
        (recordChallenge challenges now freshId p).2.length =
          challenges.length + 1) ∧
    (∀ (now : Nat) (c : SystemChallenge),
      (bumpOccurrence now c).context =
        recSet (recSet c.context "occurrences"
          (.num (occurrencesOrOne (recGet c.context "occurrences") + 1)))
          "lastOccurred" (.date now)) ∧
    (∀ (t : ChallengeType) (d1 d2 : String) (n1 n2 : Nat) (f1 f2 : String),
      ((4 : ℚ)/5 < calculateSimilarity d1 d2 →
        (recordChallenge (recordChallenge [] n1 f1
            { type := some t, description := some d1 }).2 n2 f2
            { type := some t, description := some d2 }).2.length = 1 ∧
        (recordChallenge (recordChallenge [] n1 f1
            { type := some t, description := some d1 }).2 n2 f2
            { type := some t, description := some d2 }).1 = f1) ∧
      (calculateSimilarity d1 d2 ≤ 4/5 →
        (recordChallenge (recordChallenge [] n1 f1
            { type := some t, description := some d1 }).2 n2 f2
            { type := some t, description := some d2 }).2.length = 2)) := by
  refine ⟨?_, ?_, ?_, ?_, ?_⟩
  · intro p c
    cases hp : p.type with
    | none => simp [isSimilarTo, hp]
    | some t =>
        simp only [isSimilarTo, hp, Bool.and_eq_true, beq_iff_eq,
          Bool.not_eq_eq_eq_not, Bool.not_true, decide_eq_true_eq,
          Option.some.injEq]
        constructor
        · rintro ⟨⟨hty, hst⟩, hsim⟩
          exact ⟨⟨t, rfl, hty⟩, by simpa using hst, hsim⟩
        · rintro ⟨⟨t2, ht2, hty⟩, hst, hsim⟩
          obtain rfl := ht2
          exact ⟨⟨hty, by simpa using hst⟩, hsim⟩
  · intro challenges now freshId p c h
    obtain ⟨pre, post, h1, h2, h3⟩ :=
      replaceFirst_split (isSimilarTo p) (bumpOccurrence now) challenges c h
    have hrec : recordChallenge challenges now freshId p =
        (c.id, replaceFirst (isSimilarTo p) (bumpOccurrence now) challenges) := by
      simp only [recordChallenge, findSimilarChallenge] at h ⊢
      rw [h]
    refine ⟨by rw [hrec], ⟨pre, post, h1, by rw [hrec]; exact h2, h3⟩, ?_⟩
    rw [hrec, h2, h1]
    simp
  · intro challenges now freshId p h
    have hrec : (recordChallenge challenges now freshId p).2 =
        challenges ++
          [{ id := freshId,
             type := p.type.getD .error,
             severity := p.severity.getD .medium,
             description := p.description.getD "",
             detectedAt := now,
             context := p.context.getD [],
             proposedSolutions := [],
             status := .pending,
             learnings := [],
             source := p.source.getD .auto }] := by
      simp only [recordChallenge, findSimilarChallenge] at h ⊢
      rw [h]
    rw [hrec]
    simp
  · intro now c
    rfl
  · intro t d1 d2 n1 n2 f1 f2
    have hst1 : (recordChallenge [] n1 f1
        { type := some t, description := some d1 }).2 =
        [{ id := f1, type := t, severity := .medium, description := d1,
           detectedAt := n1, context := [], proposedSolutions := [],
           status := .pending, learnings := [], source := .auto }] := rfl
    have hpred : isSimilarTo { type := some t, description := some d2 }
        ({ id := f1, type := t, severity := .medium, description := d1,
           detectedAt := n1, context := [], proposedSolutions := [],
           status := .pending, learnings := [], source := .auto } :
          SystemChallenge) =
        decide ((4 : ℚ)/5 < calculateSimilarity d1 d2) := by
      simp [isSimilarTo]
    constructor
    · intro hgt
      have hp : isSimilarTo { type := some t, description := some d2 }
          ({ id := f1, type := t, severity := .medium, description := d1,
             detectedAt := n1, context := [], proposedSolutions := [],
             status := .pending, learnings := [], source := .auto } :
            SystemChallenge) = true := by
        rw [hpred]
        exact decide_eq_true hgt
      rw [hst1]
      constructor
      · simp only [recordChallenge, findSimilarChallenge, List.find?_cons_of_pos _ hp,
          replaceFirst, hp, if_true]
        rfl
      · simp only [recordChallenge, findSimilarChallenge, List.find?_cons_of_pos _ hp]
    · intro hle
      have hp : isSimilarTo { type := some t, description := some d2 }
          ({ id := f1, type := t, severity := .medium, description := d1,
             detectedAt := n1, context := [], proposedSolutions := [],
             status := .pending, learnings := [], source := .auto } :
            SystemChallenge) = false := by
        rw [hpred]
        exact decide_eq_false (not_lt.mpr hle)
      have hfind : findSimilarChallenge
          [({ id := f1, type := t, severity := .medium, description := d1,
              detectedAt := n1, context := [], proposedSolutions := [],
              status := .pending, learnings := [], source := .auto } :
            SystemChallenge)]
          { type := some t, description := some d2 } = none := by
        simp only [findSimilarChallenge, List.find?]
        rw [hp]
      rw [hst1]
      simp only [recordChallenge]
      rw [hfind]
      rfl

/-- C1 counterexample: the descriptions "a b c d" and "a b c d e" of the
same type have word-set Jaccard similarity exactly 0.8 — an 80% overlap —
yet recording both stores TWO challenges, because the source tests
strictly `> 0.8`; the claim's "≥ 80% overlap yields exactly one stored
Challenge" is false at the boundary. -/
theorem recordChallenge_boundary_counterexample :
    calculateSimilarity "a b c d" "a b c d e" = 4/5 ∧
    (recordChallenge (recordChallenge [] 0 "id1"
        { type := some .error, description := some "a b c d" }).2 1 "id2"
        { type := some .error, description := some "a b c d e" }).2.length = 2 := by
  have hlen1 : ((jsSplitWs (jsToLower "a b c d")).dedup.filter
      (fun x => ((jsSplitWs (jsToLower "a b c d e")).dedup).contains x)).length = 4 := by
    decide
  have hlen2 : (((jsSplitWs (jsToLower "a b c d")).dedup ++
      (jsSplitWs (jsToLower "a b c d e")).dedup).dedup).length = 5 := by
    decide
  have hsim : calculateSimilarity "a b c d" "a b c d e" = 4/5 := by
    simp only [calculateSimilarity]
    rw [hlen1, hlen2]
    norm_num
  refine ⟨hsim, ?_⟩
  have hst1 : (recordChallenge [] 0 "id1"
      { type := some .error, description := some "a b c d" }).2 =
      [{ id := "id1", type := .error, severity := .medium, description := "a b c d",
         detectedAt := 0, context := [], proposedSolutions := [],
         status := .pending, learnings := [], source := .auto }] := rfl
  have hp : isSimilarTo { type := some .error, description := some "a b c d e" }
      ({ id := "id1", type := .error, severity := .medium, description := "a b c d",
         detectedAt := 0, context := [], proposedSolutions := [],
         status := .pending, learnings := [], source := .auto } :
        SystemChallenge) = false := by
    simp only [isSimilarTo]
    rw [show calculateSimilarity "a b c d"
        (Option.getD (some "a b c d e") "") = 4/5 from hsim]
    simp only [Bool.and_eq_false_iff]
    right
    simp only [decide_eq_false_iff_not, not_lt]
    norm_num
  have hfind : findSimilarChallenge
      [({ id := "id1", type := .error, severity := .medium,
          description := "a b c d", detectedAt := 0, context := [],
          proposedSolutions := [], status := .pending, learnings := [],
          source := .auto } : SystemChallenge)]
      { type := some .error, description := some "a b c d e" } = none := by
    simp only [findSimilarChallenge, List.find?]
    rw [hp]
  rw [hst1]
  simp only [recordChallenge]
  rw [hfind]
  rfl

/-- The challenge stored by the first recording of the C1 witness. -/
def c1stored : SystemChallenge :=
  { id := "f1", type := .performance, severity := .high,
    description := "high cpu usage detected", detectedAt := 0, context := [],
    proposedSolutions := [], status := .pending, learnings := [], source := .auto }

/-- A second recording with an identical description (similarity 1). -/
def c1dup : PartialChallenge :=
  { type := some .performance, description := some "high cpu usage detected" }

/-- A second recording with a disjoint description (similarity 0). -/
def c1far : PartialChallenge :=
  { type := some .performance, description := some "totally unrelated words" }

/-- Witness for C1: an identical same-type description deduplicates into the
stored challenge (its id comes back, still one record), while a disjoint one
appends a second record. -/
theorem recordChallenge_dedup_spec_witness :
    (recordChallenge [c1stored] 5 "f2" c1dup).1 = "f1" ∧
    (recordChallenge [c1stored] 5 "f2" c1dup).2.length = 1 ∧
    (recordChallenge [c1stored] 5 "f2" c1far).2.length = 2 := by
  have hsim1 : calculateSimilarity "high cpu usage detected"
      "high cpu usage detected" = 1 := by
    have h1 : ((jsSplitWs (jsToLower "high cpu usage detected")).dedup.filter
        (fun x => ((jsSplitWs (jsToLower "high cpu usage detected")).dedup).contains x)).length = 4 := by
      decide
    have h2 : (((jsSplitWs (jsToLower "high cpu usage detected")).dedup ++
        (jsSplitWs (jsToLower "high cpu usage detected")).dedup).dedup).length = 4 := by
      decide
    simp only [calculateSimilarity]
    rw [h1, h2]
    norm_num
  have hsim2 : calculateSimilarity "high cpu usage detected"
      "totally unrelated words" = 0 := by
    have h1 : ((jsSplitWs (jsToLower "high cpu usage detected")).dedup.filter
        (fun x => ((jsSplitWs (jsToLower "totally unrelated words")).dedup).contains x)).length = 0 := by
      decide
    simp only [calculateSimilarity]
    rw [h1]
    norm_num
  have hp1 : isSimilarTo c1dup c1stored = true := by
    simp only [c1dup, c1stored, isSimilarTo, Option.getD_some]
    have hlt : (4 : ℚ)/5 < 1 := by norm_num
    simp [hsim1, hlt]
  have hfind1 : findSimilarChallenge [c1stored] c1dup = some c1stored := by
    simp only [findSimilarChallenge, List.find?]
    rw [hp1]
  have hp2 : isSimilarTo c1far c1stored = false := by
    simp only [c1far, c1stored, isSimilarTo, Option.getD_some]
    have hnlt : ¬((4 : ℚ)/5 < 0) := by norm_num
    simp [hsim2, hnlt]
  have hfind2 : findSimilarChallenge [c1stored] c1far = none := by
    simp only [findSimilarChallenge, List.find?]
    rw [hp2]
  obtain ⟨ha, -, hb⟩ :=
    recordChallenge_dedup_spec.2.1 [c1stored] 5 "f2" c1dup c1stored hfind1
  have hc := recordChallenge_dedup_spec.2.2.1 [c1stored] 5 "f2" c1far hfind2
  exact ⟨ha, by simpa using hb, by simpa using hc⟩

/-! ## Instantiation witnesses for the remaining claim theorems -/

/-- Witness for C3's amended gate at the two concrete instances. -/
theorem autoEnqueue_gate_witness :
    analyzeAutoEnqueue true c3chHigh [c3sol] = true ∧
    analyzeAutoEnqueue true c3chCrit [c3sol] = false := by
  have h := autoEnqueue_gate true c3chHigh c3sol []
  exact ⟨h.2.2.1, h.2.2.2⟩

/-- Witness for C7 at the 92 → 60 cpu scenario. -/
theorem calculateImprovement_success_spec_witness :
    recGet (calculateImprovement c7before c7after) "cpuImprovement" =
      some (800/23) ∧
    isSuccessful (calculateImprovement c7before c7after)
      { performance := 0, reliability := 0, userExperience := 0, cost := 0,
        security := 0 } = true := by
  have h := calculateImprovement_success_spec c7before c7after
    { performance := 0, reliability := 0, userExperience := 0, cost := 0,
      security := 0 } []
  exact ⟨h.2.2.2.2.2.1, h.2.2.2.2.2.2.2⟩

/-- An empty transfer state for the C8 witness. -/
def c8st : KTState :=
  { transferHistory := [], kbPatterns := [], kbSolutions := [], kbLearnings := [] }

/-- A concrete incoming package for the C8 witness. -/
def c8pkg : KnowledgeTransferPackage :=
  { sourceSystem := "a", targetSystem := "b", challenges := [], solutions := [],
    learnings := [], patterns := [], createdAt := 0, version := "9.9.9" }

/-- Witness for C8 at the two concrete versions. -/
theorem receivePackage_version_gate_witness :
    receivePackage c8st 0 { c8pkg with version := "2.0.0" } =
      .error "Incompatible knowledge version: 2.0.0" ∧
    receivePackage c8st 0 { c8pkg with version := "1.3.0" } =
      .ok (integrateKnowledge c8st 0 { c8pkg with version := "1.3.0" }) := by
  have h := receivePackage_version_gate c8st 0 c8pkg
  exact ⟨h.2.2.1, h.2.2.2⟩

end SES
